import Mathlib

/-!
Verification development for jwt-express (src/jwt-express.js).

The source is a JavaScript module; we give a shallow embedding:

* JavaScript values appearing in token payloads are modelled by `Value`
  (undefined, null, booleans, numbers, strings).  All numbers in the model
  are integers (`Int`); fractional numbers and NaN-producing arithmetic are
  outside the model, with `toNumber` returning `none` for NaN.
* A payload (`this.payload`) is an association list preserving insertion
  order; JavaScript property write semantics (overwrite in place, else
  append) is `setValue`, property read is `getValue` (absent keys read as
  `undefined`).
* The jsonwebtoken dependency is an external collaborator (spec section 4.1
  treats it as an opaque codec boundary).  It is modelled abstractly:
  a signed token is its payload together with the signing key and an
  optional absolute expiry; `utilsVerify` classifies failures into
  expired vs invalid, `utilsDecode` is the unverified structural decode.
* Each method of the JWT prototype becomes a pure state transformer on the
  `JWT` structure; `Date.now()` becomes an explicit `now : Int` argument.
* The express transport (req/res, cookies, headers) is a collaborator
  outside the core (spec section 1); middleware take the extracted raw
  token / the attached JWT directly and return a `Next` outcome instead of
  calling `next`.
-/

/-- JavaScript values appearing in payloads and comparisons. -/
inductive Value where
  | undef
  | null
  | bool (b : Bool)
  | num (n : Int)
  | str (s : String)
deriving DecidableEq, Repr

/-- ToNumber coercion of JavaScript, restricted to this value universe;
`none` plays the role of NaN.  Numeric strings are restricted to integer
literals since every number of the model is an integer. -/
def toNumber : Value → Option Int
  | .undef => none
  | .null => some 0
  | .bool b => some (if b then 1 else 0)
  | .num n => some n
  | .str s => if s = "" then some 0 else s.toInt?

/-- JavaScript truthiness of a value. -/
def truthy : Value → Bool
  | .undef => false
  | .null => false
  | .bool b => b
  | .num n => n != 0
  | .str s => s != ""

/-- Booleans are coerced to numbers before loose equality (ECMA abstract
equality). -/
def deBool : Value → Value
  | .bool b => .num (if b then 1 else 0)
  | v => v

/-- Abstract (loose) equality after boolean-to-number coercion. -/
def jsLooseEqCore : Value → Value → Bool
  | .undef, .undef => true
  | .undef, .null => true
  | .null, .undef => true
  | .null, .null => true
  | .num n, .num m => n == m
  | .str s, .str t => s == t
  | .num n, .str t =>
    match toNumber (.str t) with
    | some m => n == m
    | none => false
  | .str s, .num m =>
    match toNumber (.str s) with
    | some n => n == m
    | none => false
  | _, _ => false

/-- JavaScript loose equality (the source's data == value). -/
def jsLooseEq (a b : Value) : Bool := jsLooseEqCore (deBool a) (deBool b)

/-- JavaScript strict equality (the source's data === value): same type and
same value. -/
def jsStrictEq (a b : Value) : Bool := a == b

/-- Abstract relational comparison a < b: lexicographic when both operands
are strings, otherwise numeric after ToNumber; `none` when a NaN is
involved. -/
def ltCore : Value → Value → Option Bool
  | .str s, .str t => some (decide (s < t))
  | a, b =>
    match toNumber a, toNumber b with
    | some n, some m => some (decide (n < m))
    | _, _ => none

/-- JavaScript a < b. -/
def jsLt (a b : Value) : Bool := (ltCore a b).getD false

/-- JavaScript a > b. -/
def jsGt (a b : Value) : Bool := (ltCore b a).getD false

/-- JavaScript a <= b: the negation of b < a unless NaN. -/
def jsLe (a b : Value) : Bool :=
  match ltCore b a with
  | some r => !r
  | none => false

/-- JavaScript a >= b: the negation of a < b unless NaN. -/
def jsGe (a b : Value) : Bool :=
  match ltCore a b with
  | some r => !r
  | none => false

/-- A token payload: ordered key-value mapping, JavaScript object style. -/
abbrev Payload := List (String × Value)

/-- Property read: payload[key], `undefined` when absent. -/
def getValue : Payload → String → Value
  | [], _ => .undef
  | (k, v) :: rest, key => if k = key then v else getValue rest key

/-- Property write: payload[key] = v; overwrites in place when the key
exists, otherwise appends. -/
def setValue : Payload → String → Value → Payload
  | [], key, v => [(key, v)]
  | (k, w) :: rest, key, v =>
    if k = key then (key, v) :: rest else (k, w) :: setValue rest key v

/-- Raw token strings, abstracted: the empty string, a structurally
undecodable string, or a well-formed signed token carrying its payload, the
key it was signed with and an optional absolute expiry (milliseconds). -/
inductive RawToken where
  | empty
  | malformed (s : String)
  | tok (payload : Payload) (key : String) (exp : Option Int)
deriving DecidableEq, Repr

/-- Outcome classification of the codec's verified decode
(spec section 4.1): success, ExpiredError, or InvalidError. -/
inductive VerifyResult where
  | ok (payload : Payload)
  | expiredError
  | invalidError
deriving DecidableEq, Repr

/-- Codec model of jsonwebtoken.sign: deterministic encoding of the payload
under the key; signOptions reduce to an optional absolute expiry. -/
def utilsSign (payload : Payload) (key : String) (exp : Option Int) : RawToken :=
  .tok payload key exp

/-- Codec model of jsonwebtoken.verify at time `now`: signature mismatch or
malformation is InvalidError, a passed expiry is ExpiredError, otherwise the
payload is returned. -/
def utilsVerify (t : RawToken) (key : String) (now : Int) : VerifyResult :=
  match t with
  | .empty => .invalidError
  | .malformed _ => .invalidError
  | .tok p k exp =>
    if k = key then
      match exp with
      | some e => if e ≤ now then .expiredError else .ok p
      | none => .ok p
    else .invalidError

/-- Codec model of jsonwebtoken.decode: best-effort unverified decode,
null (here `none`) on malformation. -/
def utilsDecode : RawToken → Option Payload
  | .tok p _ _ => some p
  | _ => none

/-- Serializable view of a JWT: exactly the five fields the source's toJSON
returns (token, payload, valid, expired, stale). -/
structure JWTView where
  token : RawToken
  payload : Payload
  valid : Bool
  expired : Bool
  stale : Bool
deriving DecidableEq, Repr

/-- Options of jwt-express relevant to the core (init lines 196-209).
Transport-only fields (cookie name, cookieOptions, reqProperty) and the
revoke callback, whose effects live outside the core per spec sections 1
and 4.2, are not carried.  The additional verify callback receives the
serializable view of the JWT it inspects. -/
structure Options where
  cookies : Bool
  refresh : Bool
  signOptions : Option Int
  stales : Int
  verify : JWTView → Bool

/-- State of a JWT instance (constructor lines 9-17). -/
structure JWT where
  token : RawToken
  payload : Payload
  secret : String
  options : Options
  valid : Bool
  expired : Bool
  stale : Bool

/-- Constructor: new JWT(secret, options). -/
def newJWT (secret : String) (options : Options) : JWT :=
  { token := .empty, payload := [], secret := secret, options := options,
    valid := false, expired := false, stale := true }

/-- Source toJSON (lines 72-80): the serializable view, without the secret
or the options. -/
def JWT.toJSON (j : JWT) : JWTView :=
  { token := j.token, payload := j.payload, valid := j.valid,
    expired := j.expired, stale := j.stale }

/-- Source sign (lines 42-52): stamps payload.stales = now + options.stales,
encodes, and sets valid/expired/stale. -/
def JWT.sign (j : JWT) (payload : Payload) (now : Int) : JWT :=
  let p := setValue payload "stales" (.num (now + j.options.stales))
  { j with payload := p,
           token := utilsSign p j.secret j.options.signOptions,
           valid := true, expired := false, stale := false }

/-- Source resign (lines 23-25): sign the current payload again. -/
def JWT.resign (j : JWT) (now : Int) : JWT :=
  j.sign j.payload now

/-- Source revoke (lines 32-35): calls the configured callback with the JWT
and returns it; the callback is an external effect (spec section 4.2: revoke
does not alter token state itself), so the state is unchanged. -/
def JWT.revoke (j : JWT) : JWT := j

/-- The token argument of verify is defaulted to the empty string when
absent (token || ''). -/
def orEmpty : Option RawToken → RawToken
  | some t => t
  | none => .empty

/-- Fallback decode of verify's catch branch:
utils.decode(this.token) || {}. -/
def decodeOrEmpty (t : RawToken) : Payload :=
  match utilsDecode t with
  | some p => p
  | none => []

/-- Condition of verify's staleness step (line 104):
this.payload.stales && Date.now() <= this.payload.stales. -/
def staleRefreshed (p : Payload) (now : Int) : Bool :=
  truthy (getValue p "stales") && jsLe (.num now) (getValue p "stales")

/-- Try/catch block of verify (lines 90-98): verified decode on success
sets the payload and valid; on failure the unverified decode is used and
expired is raised exactly for the expired classification.  Note the source
does not reset valid, expired or stale before this block. -/
def verifyDecoded (j : JWT) (t : RawToken) (now : Int) : JWT :=
  match utilsVerify t j.secret now with
  | .ok p => { j with token := t, payload := p, valid := true }
  | .expiredError => { j with token := t, payload := decodeOrEmpty t, expired := true }
  | .invalidError => { j with token := t, payload := decodeOrEmpty t }

/-- Additional-verify step of verify (lines 100-102): a configured
predicate can only revoke validity. -/
def verifyChecked (j : JWT) (t : RawToken) (now : Int) : JWT :=
  let j2 := verifyDecoded j t now
  if j2.valid && !(j2.options.verify (JWT.toJSON j2)) then
    { j2 with valid := false }
  else j2

/-- Source verify (lines 87-109): decode, additional check, then the
staleness step, which can only lower stale to false. -/
def JWT.verify (j : JWT) (token : Option RawToken) (now : Int) : JWT :=
  let j3 := verifyChecked j (orEmpty token) now
  if staleRefreshed j3.payload now then { j3 with stale := false } else j3

/-- JWTExpressError carrying the message and, for require failures, the
diagnostic fields the source attaches (lines 299-303). -/
structure JWTExpressError where
  message : String
  key : Option String := none
  data : Option Value := none
  operator : Option String := none
  value : Option Value := none
deriving DecidableEq, Repr

/-- Outcome of a middleware call: next() or next(err). -/
inductive Next where
  | ok
  | err (e : JWTExpressError)
deriving DecidableEq, Repr

/-- Error carrying only a message. -/
def mkErr (m : String) : JWTExpressError := { message := m }

/-- Source active middleware body (lines 117-129).  The attached JWT is
req[reqProperty]; absence falls back to the empty object, whose valid
property reads as undefined, hence falsy. -/
def activeRun (attached : Option JWT) : Next :=
  match attached with
  | none => .err (mkErr "JWT is invalid")
  | some jwt =>
    if !jwt.valid then .err (mkErr "JWT is invalid")
    else if jwt.stale then .err (mkErr "JWT is stale")
    else .ok

/-- Source valid middleware body (lines 316-326). -/
def validRun (attached : Option JWT) : Next :=
  match attached with
  | none => .err (mkErr "JWT is invalid")
  | some jwt =>
    if !jwt.valid then .err (mkErr "JWT is invalid") else .ok

/-- Operator whitelist of require (line 266). -/
def requireOps : List String := ["==", "===", "!=", "!==", "<", "<=", ">", ">="]

/-- Construction-time failures of require: ReferenceError for a falsy key,
JWTExpressError (the configuration error) for an unknown truthy operator. -/
inductive SetupError where
  | referenceError (msg : String)
  | jwtError (msg : String)
deriving DecidableEq, Repr

/-- Parameters captured by a constructed require middleware. -/
structure RequireGuard where
  key : String
  operator : Option String
  value : Value
deriving DecidableEq, Repr

/-- Source require construction (lines 262-268): rejects a falsy key, and a
truthy operator outside the whitelist; the middleware closure captures key,
operator and value. -/
def jwtRequire (key : String) (operator : Option String) (value : Value) :
    Except SetupError RequireGuard :=
  if key = "" then .error (.referenceError "key must be defined")
  else
    match operator with
    | some s =>
      if s ≠ "" && !(requireOps.contains s) then
        .error (.jwtError ("Invalid operator: " ++ s))
      else .ok { key := key, operator := operator, value := value }
    | none => .ok { key := key, operator := operator, value := value }

/-- Operator dispatch of the require middleware (lines 280-296). -/
def jsCompare (data : Value) (op : String) (value : Value) : Bool :=
  if op = "==" then jsLooseEq data value
  else if op = "===" then jsStrictEq data value
  else if op = "!=" then !jsLooseEq data value
  else if op = "!==" then !jsStrictEq data value
  else if op = "<" then jsLt data value
  else if op = "<=" then jsLe data value
  else if op = ">" then jsGt data value
  else if op = ">=" then jsGe data value
  else false

/-- Source require middleware body (lines 270-309): missing JWT falls back
to an empty payload; a falsy operator defaults to loose equality against
boolean true; failure carries the diagnostic fields. -/
def requireRun (g : RequireGuard) (attached : Option JWT) : Next :=
  let payload := match attached with
    | some jwt => jwt.payload
    | none => []
  let data := getValue payload g.key
  let opv := match g.operator with
    | none => ("==", Value.bool true)
    | some s => if s = "" then ("==", Value.bool true) else (s, g.value)
  if jsCompare data opv.1 opv.2 then .ok
  else .err { message := "JWT is insufficient", key := some g.key,
              data := some data, operator := some opv.1, value := some opv.2 }

/-- Verification step of the init middleware (lines 224-225): a fresh JWT
for the resolved secret, verifying the extracted raw token. -/
def initVerify (secret : String) (opts : Options) (tokenIn : Option RawToken)
    (now : Int) : JWT :=
  JWT.verify (newJWT secret opts) tokenIn now

/-- Refresh logic of the init middleware (lines 215-229): the verified JWT
is attached to the request; iff it is valid, not stale and refresh is on,
resign-and-store runs (counted in the second component).  Transport
extraction and the res.jwt / clear installation are collaborator-side. -/
def initRun (secret : String) (opts : Options) (tokenIn : Option RawToken)
    (now : Int) : JWT × Nat :=
  let jwt := initVerify secret opts tokenIn now
  if jwt.valid && !jwt.stale && opts.refresh then (jwt.resign now, 1)
  else (jwt, 0)

/-- Heap of payload objects, for the in-place mutation reading of sign:
JavaScript objects are references, so the payload argument of sign is an
address into this heap. -/
structure Heap where
  read : Nat → Payload

/-- Heap update at one address. -/
def Heap.write (h : Heap) (a : Nat) (p : Payload) : Heap :=
  ⟨fun x => if x = a then p else h.read x⟩

/-- A JWT whose payload field is a heap reference, as in the source where
this.payload aliases the caller's object. -/
structure JWTRef where
  payloadAddr : Nat
  token : RawToken
  secret : String
  valid : Bool
  expired : Bool
  stale : Bool

/-- Source sign (lines 42-52) with the heap explicit: payload.stales is
written into the caller's object in place, and this.payload is set to the
same reference. -/
def signRef (h : Heap) (j : JWTRef) (addr : Nat) (opts : Options) (now : Int) :
    Heap × JWTRef :=
  let p := setValue (h.read addr) "stales" (.num (now + opts.stales))
  let h2 := h.write addr p
  (h2, { j with payloadAddr := addr,
                token := utilsSign p j.secret opts.signOptions,
                valid := true, expired := false, stale := false })

/-- Source resign with the heap explicit: this.sign(this.payload) passes the
held reference back to sign. -/
def resignRef (h : Heap) (j : JWTRef) (opts : Options) (now : Int) :
    Heap × JWTRef :=
  signRef h j j.payloadAddr opts now

/-- Default options as installed by init (lines 196-209), with the default
always-true additional verify predicate. -/
def optsD : Options :=
  { cookies := true, refresh := true, signOptions := none, stales := 900000,
    verify := fun _ => true }

/-- Concrete input for C2: a fresh JWT verifying a well-formed token whose
stales claim equals the clock reading of the verify call. -/
def c2JWT : JWT :=
  JWT.verify (newJWT "s" optsD)
    (some (RawToken.tok [("stales", Value.num 1000)] "s" none)) 1000

/-- Concrete input for C3: a JWT that is signed and then verifies a token
whose expiry has passed. -/
def c3JWT : JWT :=
  JWT.verify (JWT.sign (newJWT "s" optsD) [] 0)
    (some (RawToken.tok [] "s" (some 0))) 1000

/-- Concrete input for C4: a JWT that is signed and then verifies a
malformed token. -/
def c4JWT : JWT :=
  JWT.verify (JWT.sign (newJWT "s" optsD) [] 0)
    (some (RawToken.malformed "x")) 5

theorem getValue_setValue (p : Payload) (k : String) (v : Value) :
    getValue (setValue p k v) k = v := by
  induction p with
  | nil => simp [getValue, setValue]
  | cons kv rest ih =>
    obtain ⟨k1, v1⟩ := kv
    by_cases h : k1 = k <;> simp [getValue, setValue, h, ih]

theorem jsLe_num_left_iff (now : Int) (v : Value) :
    jsLe (.num now) v = true ↔ ∃ m, toNumber v = some m ∧ now ≤ m := by
  unfold jsLe ltCore
  cases v with
  | undef => simp [toNumber]
  | null => simp [toNumber, Int.not_lt]
  | bool b => cases b <;> simp [toNumber, Int.not_lt]
  | num n => simp [toNumber, Int.not_lt]
  | str s =>
    by_cases hs : s = ""
    · simp [toNumber, hs, Int.not_lt]
    · cases h : s.toInt? with
      | none => simp [toNumber, hs, h]
      | some n => simp [toNumber, hs, h, Int.not_lt]

theorem staleRefreshed_iff (p : Payload) (now : Int) :
    staleRefreshed p now = true ↔
      (truthy (getValue p "stales") = true ∧
       ∃ m, toNumber (getValue p "stales") = some m ∧ now ≤ m) := by
  unfold staleRefreshed
  rw [Bool.and_eq_true, jsLe_num_left_iff]

theorem verifyDecoded_stale (j : JWT) (t : RawToken) (now : Int) :
    (verifyDecoded j t now).stale = j.stale := by
  unfold verifyDecoded
  cases utilsVerify t j.secret now <;> rfl

theorem verifyChecked_stale (j : JWT) (t : RawToken) (now : Int) :
    (verifyChecked j t now).stale = j.stale := by
  unfold verifyChecked
  dsimp only
  split <;> simp [verifyDecoded_stale]

theorem verify_stale_eq (j : JWT) (tok : Option RawToken) (now : Int) :
    (JWT.verify j tok now).stale =
      if staleRefreshed (verifyChecked j (orEmpty tok) now).payload now then false
      else j.stale := by
  unfold JWT.verify
  dsimp only
  split <;> simp_all [verifyChecked_stale]

theorem verify_payload_eq (j : JWT) (tok : Option RawToken) (now : Int) :
    (JWT.verify j tok now).payload = (verifyChecked j (orEmpty tok) now).payload := by
  unfold JWT.verify
  dsimp only
  split <;> rfl

theorem verify_valid_eq (j : JWT) (tok : Option RawToken) (now : Int) :
    (JWT.verify j tok now).valid = (verifyChecked j (orEmpty tok) now).valid := by
  unfold JWT.verify
  dsimp only
  split <;> rfl

theorem verify_expired_eq (j : JWT) (tok : Option RawToken) (now : Int) :
    (JWT.verify j tok now).expired = (verifyChecked j (orEmpty tok) now).expired := by
  unfold JWT.verify
  dsimp only
  split <;> rfl

theorem verify_of_ok (j : JWT) (tok : Option RawToken) (now : Int) (p : Payload)
    (h : utilsVerify (orEmpty tok) j.secret now = .ok p)
    (hver : ∀ v, j.options.verify v = true) (hexp : j.expired = false) :
    (JWT.verify j tok now).valid = true ∧ (JWT.verify j tok now).expired = false ∧
    (JWT.verify j tok now).payload = p := by
  rw [verify_valid_eq, verify_expired_eq, verify_payload_eq]
  unfold verifyChecked verifyDecoded
  rw [h]
  simp [hver, hexp]

theorem verify_of_expired (j : JWT) (tok : Option RawToken) (now : Int)
    (h : utilsVerify (orEmpty tok) j.secret now = .expiredError)
    (hval : j.valid = false) :
    (JWT.verify j tok now).valid = false ∧ (JWT.verify j tok now).expired = true ∧
    (JWT.verify j tok now).payload = decodeOrEmpty (orEmpty tok) := by
  rw [verify_valid_eq, verify_expired_eq, verify_payload_eq]
  unfold verifyChecked verifyDecoded
  rw [h]
  simp [hval]

theorem verify_of_invalid (j : JWT) (tok : Option RawToken) (now : Int)
    (h : utilsVerify (orEmpty tok) j.secret now = .invalidError)
    (hval : j.valid = false) (hexp : j.expired = false) :
    (JWT.verify j tok now).valid = false ∧ (JWT.verify j tok now).expired = false ∧
    (JWT.verify j tok now).payload = decodeOrEmpty (orEmpty tok) := by
  rw [verify_valid_eq, verify_expired_eq, verify_payload_eq]
  unfold verifyChecked verifyDecoded
  rw [h]
  simp [hval, hexp]

theorem staleRefreshed_of (p : Payload) (now m : Int)
    (hget : getValue p "stales" = .num m) (hm : m ≠ 0) (hle : now ≤ m) :
    staleRefreshed p now = true := by
  unfold staleRefreshed jsLe ltCore
  rw [hget]
  simp [truthy, toNumber]
  omega

/-- Claim C1: sign-verify round trip.  For every payload C, signing C and
then verifying the produced token with the same secret and options (the
default no-expiry signOptions and an accepting additional-verify predicate,
with a positive stale window and a clock that has not advanced past the
stale window) yields valid=true, expired=false, stale=false, and a payload
equal to C plus the injected stales timestamp signing-time + options.stales. -/
theorem C1_sign_verify_roundtrip (secret : String) (opts : Options) (C : Payload)
    (t0 t1 : Int)
    (hver : ∀ v, opts.verify v = true) (hsign : opts.signOptions = none)
    (h0 : 0 ≤ t0) (hst : 0 < opts.stales) (h1 : t1 ≤ t0 + opts.stales) :
    (JWT.verify (newJWT secret opts)
        (some (JWT.sign (newJWT secret opts) C t0).token) t1).valid = true ∧
    (JWT.verify (newJWT secret opts)
        (some (JWT.sign (newJWT secret opts) C t0).token) t1).expired = false ∧
    (JWT.verify (newJWT secret opts)
        (some (JWT.sign (newJWT secret opts) C t0).token) t1).stale = false ∧
    (JWT.verify (newJWT secret opts)
        (some (JWT.sign (newJWT secret opts) C t0).token) t1).payload =
      setValue C "stales" (.num (t0 + opts.stales)) := by
  have htok : (JWT.sign (newJWT secret opts) C t0).token =
      RawToken.tok (setValue C "stales" (.num (t0 + opts.stales))) secret none := by
    simp [JWT.sign, newJWT, utilsSign, hsign]
  rw [htok]
  have hu : utilsVerify
      (orEmpty (some (RawToken.tok (setValue C "stales" (.num (t0 + opts.stales))) secret none)))
      (newJWT secret opts).secret t1 =
      .ok (setValue C "stales" (.num (t0 + opts.stales))) := by
    simp [orEmpty, utilsVerify, newJWT]
  obtain ⟨hv, he, hp⟩ := verify_of_ok (newJWT secret opts) _ t1 _ hu hver rfl
  refine ⟨hv, he, ?_, hp⟩
  rw [verify_stale_eq]
  have hpc : (verifyChecked (newJWT secret opts)
      (orEmpty (some (RawToken.tok (setValue C "stales" (.num (t0 + opts.stales))) secret none)))
      t1).payload = setValue C "stales" (.num (t0 + opts.stales)) := by
    rw [← verify_payload_eq]
    exact hp
  rw [hpc]
  have hs : staleRefreshed (setValue C "stales" (.num (t0 + opts.stales))) t1 = true :=
    staleRefreshed_of _ t1 (t0 + opts.stales) (getValue_setValue C _ _) (by omega) h1
  simp [hs]

/-- Claim C1 witness: the round trip at a concrete payload, secret, and
clock readings. -/
theorem C1_sign_verify_roundtrip_witness :
    (JWT.verify (newJWT "s" optsD)
        (some (JWT.sign (newJWT "s" optsD) [("admin", Value.bool true)] 0).token) 5).valid = true ∧
    (JWT.verify (newJWT "s" optsD)
        (some (JWT.sign (newJWT "s" optsD) [("admin", Value.bool true)] 0).token) 5).expired = false ∧
    (JWT.verify (newJWT "s" optsD)
        (some (JWT.sign (newJWT "s" optsD) [("admin", Value.bool true)] 0).token) 5).stale = false ∧
    (JWT.verify (newJWT "s" optsD)
        (some (JWT.sign (newJWT "s" optsD) [("admin", Value.bool true)] 0).token) 5).payload =
      setValue [("admin", Value.bool true)] "stales" (.num (0 + optsD.stales)) :=
  C1_sign_verify_roundtrip "s" optsD [("admin", Value.bool true)] 0 5
    (fun _ => rfl) rfl (by decide) (by decide) (by decide)

/-- Claim C2 counterexample: a fresh JWT verifies a token whose stales
claim equals the clock reading of the verify call (1000); the claim says
isStale must then be true, but the source's comparison is non-strict
(Date.now() <= stales), so isStale comes out false. -/
theorem C2_counterexample :
    getValue c2JWT.payload "stales" = Value.num 1000 ∧ c2JWT.stale = false :=
  ⟨rfl, rfl⟩

/-- Claim C2 as amended: after verify, isStale is false iff it was already
false before the call (verify never raises staleness), or the decoded
claims hold a truthy stales value m with current-time <= m (non-strict:
the boundary where stales equals the clock reading gives isStale=false). -/
theorem C2_verify_staleness (j : JWT) (tok : Option RawToken) (now : Int) :
    (JWT.verify j tok now).stale = false ↔
      (j.stale = false ∨
       (truthy (getValue ((JWT.verify j tok now).payload) "stales") = true ∧
        ∃ m, toNumber (getValue ((JWT.verify j tok now).payload) "stales") = some m ∧
          now ≤ m)) := by
  rw [verify_payload_eq, verify_stale_eq]
  by_cases h : staleRefreshed (verifyChecked j (orEmpty tok) now).payload now = true
  · rw [if_pos h]
    rw [staleRefreshed_iff] at h
    exact iff_of_true rfl (Or.inr h)
  · have h2 := h
    rw [staleRefreshed_iff] at h2
    rw [if_neg h]
    constructor
    · intro hstale
      exact Or.inl hstale
    · rintro (hstale | hcond)
      · exact hstale
      · exact absurd hcond h2

/-- Claim C3, code bug witness: after sign, a verify of an expired token
leaves valid=true (verify never resets valid, which latches from the sign)
while setting expired=true, violating the invariant valid implies not
expired that the library documents (expired: valid will always be false if
this is true). -/
theorem C3_code_bug_valid_and_expired :
    c3JWT.valid = true ∧ c3JWT.expired = true :=
  ⟨rfl, rfl⟩

/-- Claim C4 counterexample: after sign, a verify of a malformed token (a
codec InvalidError) leaves valid=true — the latched value from the sign —
although the claim says verify sets isValid=false on any codec failure. -/
theorem C4_counterexample :
    c4JWT.valid = true ∧ c4JWT.expired = false ∧ c4JWT.payload = [] :=
  ⟨rfl, rfl, rfl⟩

/-- Claim C4 as amended: on a Token whose flags are in the
freshly-constructed state (valid=false, expired=false, as for the
per-request instance) and whose additional-verify predicate accepts, verify
absorbs codec outcomes into state: success gives valid=true, expired=false
and the verified payload; ExpiredError gives valid=false, expired=true and
the unverified fallback payload (empty when decoding fails); InvalidError
gives valid=false, expired=false and the same fallback.  The embedding is
total, so verify never throws. -/
theorem C4_verify_absorbs_codec_failures (j : JWT) (tok : Option RawToken) (now : Int)
    (hval : j.valid = false) (hexp : j.expired = false)
    (hver : ∀ v, j.options.verify v = true) :
    match utilsVerify (orEmpty tok) j.secret now with
    | .ok p =>
      (JWT.verify j tok now).valid = true ∧ (JWT.verify j tok now).expired = false ∧
      (JWT.verify j tok now).payload = p
    | .expiredError =>
      (JWT.verify j tok now).valid = false ∧ (JWT.verify j tok now).expired = true ∧
      (JWT.verify j tok now).payload = decodeOrEmpty (orEmpty tok)
    | .invalidError =>
      (JWT.verify j tok now).valid = false ∧ (JWT.verify j tok now).expired = false ∧
      (JWT.verify j tok now).payload = decodeOrEmpty (orEmpty tok) := by
  cases h : utilsVerify (orEmpty tok) j.secret now with
  | ok p => exact verify_of_ok j tok now p h hver hexp
  | expiredError => exact verify_of_expired j tok now h hval
  | invalidError => exact verify_of_invalid j tok now h hval hexp

/-- Claim C4 witness: the amended statement at a freshly constructed JWT
verifying a malformed token. -/
theorem C4_verify_absorbs_codec_failures_witness :
    (JWT.verify (newJWT "s" optsD) (some (RawToken.malformed "x")) 0).valid = false ∧
    (JWT.verify (newJWT "s" optsD) (some (RawToken.malformed "x")) 0).expired = false ∧
    (JWT.verify (newJWT "s" optsD) (some (RawToken.malformed "x")) 0).payload =
      decodeOrEmpty (orEmpty (some (RawToken.malformed "x"))) :=
  C4_verify_absorbs_codec_failures (newJWT "s" optsD) (some (RawToken.malformed "x")) 0
    rfl rfl (fun _ => rfl)

/-- Claim C5: the active middleware passes iff a JWT is attached, valid and
not stale; it fails as invalid whenever no valid JWT is attached (also when
the JWT is absent, without dereferencing it), and as stale exactly when the
attached JWT is valid but stale. -/
theorem C5_active_guard (attached : Option JWT) :
    (activeRun attached = Next.ok ↔
       ∃ j, attached = some j ∧ j.valid = true ∧ j.stale = false) ∧
    (activeRun attached = .err (mkErr "JWT is invalid") ↔
       (attached = none ∨ ∃ j, attached = some j ∧ j.valid = false)) ∧
    (activeRun attached = .err (mkErr "JWT is stale") ↔
       ∃ j, attached = some j ∧ j.valid = true ∧ j.stale = true) := by
  cases attached with
  | none => simp [activeRun, mkErr]
  | some j =>
    cases hv : j.valid <;> cases hs : j.stale <;>
      simp [activeRun, hv, hs, mkErr]

/-- Claim C6: the init middleware performs the resign-and-store refresh
exactly once iff the verified incoming JWT is valid, not stale, and the
refresh option is on; otherwise (stale, invalid, or refresh off) zero
times; an absent incoming token always gives zero. -/
theorem C6_init_refresh (secret : String) (opts : Options) (tokenIn : Option RawToken)
    (now : Int) :
    ((initRun secret opts tokenIn now).2 = 1 ↔
       ((initVerify secret opts tokenIn now).valid = true ∧
        (initVerify secret opts tokenIn now).stale = false ∧
        opts.refresh = true)) ∧
    ((initRun secret opts tokenIn now).2 = 0 ↔
       ¬((initVerify secret opts tokenIn now).valid = true ∧
         (initVerify secret opts tokenIn now).stale = false ∧
         opts.refresh = true)) ∧
    (initRun secret opts none now).2 = 0 := by
  have hnone : (initVerify secret opts none now).valid = false := by
    have h := verify_of_invalid (newJWT secret opts) none now rfl rfl rfl
    exact h.1
  refine ⟨?_, ?_, ?_⟩
  · unfold initRun
    dsimp only
    split <;> rename_i hc <;> simp_all
  · unfold initRun
    dsimp only
    split <;> rename_i hc <;> simp_all
  · unfold initRun
    dsimp only
    rw [if_neg]
    simp [hnone]

/-- Claim C7: constructing a require middleware with a truthy operator
outside the eight-element whitelist raises the configuration error at
construction time; construction with a whitelisted operator, or with no
operator, succeeds (given a truthy key). -/
theorem C7_require_operator_validation (key : String) (op : String) (v : Value)
    (hk : key ≠ "") :
    ((op ≠ "" ∧ requireOps.contains op = false) →
       jwtRequire key (some op) v = .error (.jwtError ("Invalid operator: " ++ op))) ∧
    (requireOps.contains op = true →
       jwtRequire key (some op) v = .ok { key := key, operator := some op, value := v }) ∧
    jwtRequire key none v = .ok { key := key, operator := none, value := v } := by
  refine ⟨?_, ?_, ?_⟩
  · rintro ⟨h1, h2⟩
    have h2m : op ∉ requireOps := by simpa using h2
    simp [jwtRequire, hk, h1, h2m]
  · intro h
    have hm : op ∈ requireOps := by simpa using h
    simp [jwtRequire, hk, hm]
  · simp [jwtRequire, hk]

/-- Claim C7 witness: an unknown operator is rejected eagerly, a
whitelisted one and the no-operator form are accepted, at concrete inputs. -/
theorem C7_require_operator_validation_witness :
    jwtRequire "k" (some "<>") Value.undef =
      .error (.jwtError ("Invalid operator: " ++ "<>")) ∧
    jwtRequire "k" (some "==") Value.undef =
      .ok { key := "k", operator := some "==", value := Value.undef } ∧
    jwtRequire "k" none Value.undef =
      .ok { key := "k", operator := none, value := Value.undef } :=
  ⟨(C7_require_operator_validation "k" "<>" Value.undef (by decide)).1
      ⟨by decide, by decide⟩,
   (C7_require_operator_validation "k" "==" Value.undef (by decide)).2.1 (by decide),
   (C7_require_operator_validation "k" "==" Value.undef (by decide)).2.2⟩

/-- Claim C8: a require middleware built from only a key defaults to loose
equality against boolean true; it passes exactly when payload[key] == true
loosely, and otherwise fails with the insufficiency error carrying the key,
the actual value (undefined when the JWT or the key is absent), the
defaulted operator and the defaulted expected value. -/
theorem C8_require_default_guard (key : String) (j : JWT) :
    (requireRun { key := key, operator := none, value := Value.undef } (some j) =
       (if jsLooseEq (getValue j.payload key) (Value.bool true) then Next.ok
        else .err { message := "JWT is insufficient", key := some key,
                    data := some (getValue j.payload key), operator := some "==",
                    value := some (Value.bool true) })) ∧
    (requireRun { key := key, operator := none, value := Value.undef } none =
       .err { message := "JWT is insufficient", key := some key,
              data := some Value.undef, operator := some "==",
              value := some (Value.bool true) }) := by
  constructor
  · simp only [requireRun, jsCompare]
    split <;> simp_all
  · simp [requireRun, jsCompare, getValue, jsLooseEq, deBool, jsLooseEqCore]

/-- Claim C9: toJSON is a pure function of exactly the five public fields
token, payload, valid, expired and stale: replacing the secret and the
options arbitrarily leaves the output unchanged (so neither is ever
included), and each output field equals the corresponding JWT field. -/
theorem C9_serialize_view (j : JWT) (s : String) (o : Options) :
    JWT.toJSON { j with secret := s, options := o } = JWT.toJSON j ∧
    (JWT.toJSON j).token = j.token ∧
    (JWT.toJSON j).payload = j.payload ∧
    (JWT.toJSON j).valid = j.valid ∧
    (JWT.toJSON j).expired = j.expired ∧
    (JWT.toJSON j).stale = j.stale :=
  ⟨rfl, rfl, rfl, rfl, rfl, rfl⟩

/-- Claim C10: with the heap explicit, sign writes the stales timestamp
into the caller's payload object itself, aliases that object as the JWT's
payload reference, and a later external overwrite of the object is what a
read through the JWT's payload reference, or a resign, observes. -/
theorem C10_sign_aliases_caller_payload (h : Heap) (j : JWTRef) (addr : Nat)
    (opts : Options) (now now2 : Int) (p2 : Payload) :
    ((signRef h j addr opts now).1.read addr =
       setValue (h.read addr) "stales" (.num (now + opts.stales))) ∧
    ((signRef h j addr opts now).2.payloadAddr = addr) ∧
    (((signRef h j addr opts now).1.write addr p2).read
        ((signRef h j addr opts now).2.payloadAddr) = p2) ∧
    ((resignRef ((signRef h j addr opts now).1.write addr p2)
        (signRef h j addr opts now).2 opts now2).2.token =
       utilsSign (setValue p2 "stales" (.num (now2 + opts.stales))) j.secret
         opts.signOptions) := by
  refine ⟨?_, rfl, ?_, ?_⟩ <;> simp [signRef, resignRef, Heap.write]
